import Mathlib

/-!
Shallow embedding of the ya6502e MOS 6502 emulator core (my6502.c).

The C core keeps the register file in globals (`my_pc`, `my_ac`, `my_x`,
`my_y`, `my_sr`, `my_sp`) and talks to the host through two callbacks,
`my6502_read` and `my6502_write`, over a 16-bit address bus.  Here the
registers, the host memory array backing the callbacks (a 64 KiB byte
array in the reference harness) and a log of all bus accesses are bundled
into one `Machine` value that every operation threads explicitly.

Machine integers are modelled as `Nat` with explicit `% 256` / `% 65536`
at the points where the C types truncate (stores into `uint8_t`/`uint16_t`
objects and conversions at call boundaries).  Where the C source ors a
byte into the empty low or high half of a wider value (`addr |= hi << 8`),
the low part is below 256, so the bitwise or is plain addition and is
written as such.
-/

set_option maxRecDepth 16384
set_option maxHeartbeats 1600000

namespace Ya6502

/-- One bus access issued through the host callbacks. -/
inductive BusEvent where
  | rd (addr value : Nat)
  | wr (addr value : Nat)
deriving DecidableEq

/-- CPU register file, host-side memory behind the bus callbacks, and the
log of bus accesses (oldest first). -/
structure Machine where
  pc : Nat
  ac : Nat
  x : Nat
  y : Nat
  sr : Nat
  sp : Nat
  mem : Nat → Nat
  trace : List BusEvent

/-- Host read callback: the reference harness serves bytes from a 64 KiB
array.  The address is a `uint16_t` and the result a `uint8_t`. -/
def my6502_read (m : Machine) (addr : Nat) : Nat × Machine :=
  let a := addr % 65536
  let v := m.mem a % 256
  (v, { m with trace := m.trace ++ [BusEvent.rd a v] })

/-- Host write callback: stores one byte into the 64 KiB array. -/
def my6502_write (m : Machine) (addr value : Nat) : Machine :=
  let a := addr % 65536
  let v := value % 256
  { m with mem := fun i => if i = a then v else m.mem i,
           trace := m.trace ++ [BusEvent.wr a v] }

/-- Status register flag masks, NV-BDIZC. -/
def SR_FLAG_NEGATIVE : Nat := 0x80

def SR_FLAG_OVERFLOW : Nat := 0x40

/-- Bit 5, the unused bit, which the C source documents as hardwired to 1. -/
def SR_FLAG_UNUSED : Nat := 0x20

def SR_FLAG_BREAK : Nat := 0x10

def SR_FLAG_DECIMAL : Nat := 0x08

def SR_FLAG_INTERRUPT : Nat := 0x04

def SR_FLAG_ZERO : Nat := 0x02

def SR_FLAG_CARRY : Nat := 0x01

/-- Macro `SR_SET(bit)`: `my_sr |= bit`. -/
def SR_SET (m : Machine) (bit : Nat) : Machine :=
  { m with sr := m.sr ||| bit }

/-- Macro `SR_CLR(bit)`: `my_sr &= ~bit`; on the 8-bit register the complement
of a flag mask is its complement within a byte. -/
def SR_CLR (m : Machine) (bit : Nat) : Machine :=
  { m with sr := m.sr &&& (0xFF ^^^ bit) }

/-- Memory layout constants. -/
def STACK_OFFSET : Nat := 0x100

def IRQ_OFFSET : Nat := 0xFFFE

/-- Function `my6502_reset`: initialize the register file; memory and the bus are
not touched. -/
def my6502_reset (m : Machine) (pc : Nat) : Machine :=
  { m with pc := pc % 65536, ac := 0, x := 0, y := 0, sp := 0xFD,
           sr := SR_FLAG_UNUSED }

/-- Function `my_update_sr`: derive N and/or Z from an 8-bit value. -/
def my_update_sr (m : Machine) (value flags : Nat) : Machine :=
  let m1 :=
    if flags &&& SR_FLAG_NEGATIVE ≠ 0 then
      if value &&& 0x80 ≠ 0 then SR_SET m SR_FLAG_NEGATIVE
      else SR_CLR m SR_FLAG_NEGATIVE
    else m
  if flags &&& SR_FLAG_ZERO ≠ 0 then
    if value = 0 then SR_SET m1 SR_FLAG_ZERO else SR_CLR m1 SR_FLAG_ZERO
  else m1

/-- Function `my_update_sr_with_carry`: N/Z update plus an explicit carry value. -/
def my_update_sr_with_carry (m : Machine) (reg_value flags carry_value : Nat) :
    Machine :=
  let m1 := my_update_sr m reg_value flags
  if carry_value ≠ 0 then SR_SET m1 SR_FLAG_CARRY else SR_CLR m1 SR_FLAG_CARRY

/-- Function `my_push`: write at `0x100 + SP`, then post-decrement SP with 8-bit wrap. -/
def my_push (m : Machine) (value : Nat) : Machine :=
  let m1 := my6502_write m (STACK_OFFSET + m.sp) value
  { m1 with sp := (m1.sp + 255) % 256 }

/-- Function `my_pop`: pre-increment SP with 8-bit wrap, then read at `0x100 + SP`. -/
def my_pop (m : Machine) : Nat × Machine :=
  let m1 := { m with sp := (m.sp + 1) % 256 }
  my6502_read m1 (STACK_OFFSET + m1.sp)

/-- Addressing modes, in the C enum's declaration order. -/
inductive MyAddr where
  | IMMEDIATE
  | ABSOLUTE
  | ABSOLUTE_X
  | ABSOLUTE_Y
  | ACCUMULATOR
  | RELATIVE
  | INDIRECT
  | INDIRECT_X
  | INDIRECT_Y
  | ZEROPAGE
  | ZEROPAGE_X
  | ZEROPAGE_Y
deriving DecidableEq

/-- Numeric value of each enumerator (C assigns 0, 1, 2, ...). -/
def MyAddr.toNat : MyAddr → Nat
  | .IMMEDIATE => 0
  | .ABSOLUTE => 1
  | .ABSOLUTE_X => 2
  | .ABSOLUTE_Y => 3
  | .ACCUMULATOR => 4
  | .RELATIVE => 5
  | .INDIRECT => 6
  | .INDIRECT_X => 7
  | .INDIRECT_Y => 8
  | .ZEROPAGE => 9
  | .ZEROPAGE_X => 10
  | .ZEROPAGE_Y => 11

/-- Function `my_read_addr_from_mem`: read a little-endian 16-bit address through a
register passed by pointer, advancing the register by two with 16-bit wrap.
Returns (assembled address, final register value, machine).  The low byte is
below 256, so the or of the shifted high byte is plain addition. -/
def my_read_addr_from_mem (m : Machine) (reg : Nat) : Nat × Nat × Machine :=
  let r1 := my6502_read m reg
  let r2 := my6502_read r1.2 ((reg + 1) % 65536)
  (r1.1 + r2.1 * 256, (reg + 2) % 65536, r2.2)

/-- Function `my_read_addr`: resolve an addressing mode to an effective address,
advancing PC over the operand bytes.  The C source asserts that
`IMMEDIATE` and `ACCUMULATOR` never reach this function; those arms are
unreachable from the dispatcher below. -/
def my_read_addr (m : Machine) (mode : MyAddr) : Nat × Machine :=
  match mode with
  | .ABSOLUTE =>
    let r := my_read_addr_from_mem m m.pc
    (r.1, { r.2.2 with pc := r.2.1 })
  | .ABSOLUTE_X =>
    let r := my_read_addr_from_mem m m.pc
    let m1 := { r.2.2 with pc := r.2.1 }
    ((r.1 + m1.x) % 65536, m1)
  | .ABSOLUTE_Y =>
    let r := my_read_addr_from_mem m m.pc
    let m1 := { r.2.2 with pc := r.2.1 }
    ((r.1 + m1.y) % 65536, m1)
  | .RELATIVE =>
    let r := my6502_read m m.pc
    let m1 := { r.2 with pc := (m.pc + 1) % 65536 }
    ((m1.pc + (if r.1 < 128 then r.1 else r.1 + 65280)) % 65536, m1)
  | .INDIRECT =>
    let r := my_read_addr_from_mem m m.pc
    let m1 := { r.2.2 with pc := r.2.1 }
    let r2 := my_read_addr_from_mem m1 r.1
    (r2.1, r2.2.2)
  | .INDIRECT_X =>
    let r := my6502_read m m.pc
    let m1 := { r.2 with pc := (m.pc + 1) % 65536 }
    let addr := (r.1 + m1.x) &&& 0xFF
    let r2 := my_read_addr_from_mem m1 addr
    (r2.1, r2.2.2)
  | .INDIRECT_Y =>
    let r := my6502_read m m.pc
    let m1 := { r.2 with pc := (m.pc + 1) % 65536 }
    let r2 := my_read_addr_from_mem m1 r.1
    ((r2.1 + r2.2.2.y) % 65536, r2.2.2)
  | .ZEROPAGE =>
    let r := my6502_read m m.pc
    (r.1, { r.2 with pc := (m.pc + 1) % 65536 })
  | .ZEROPAGE_X =>
    let r := my6502_read m m.pc
    let m1 := { r.2 with pc := (m.pc + 1) % 65536 }
    ((r.1 + m1.x) &&& 0xFF, m1)
  | .ZEROPAGE_Y =>
    let r := my6502_read m m.pc
    let m1 := { r.2 with pc := (m.pc + 1) % 65536 }
    ((r.1 + m1.y) &&& 0xFF, m1)
  | _ => (0, m)

/-- Function `my_read_op`: pack (effective address, mode, operand byte) into one
integer laid out as `(addr << 16) | (mode << 8) | value`; the fields are
disjoint, so the shifts and ors are multiplication and addition. -/
def my_read_op (m : Machine) (mode : MyAddr) : Nat × Machine :=
  match mode with
  | .ABSOLUTE | .ABSOLUTE_X | .ABSOLUTE_Y | .INDIRECT_X | .INDIRECT_Y
  | .ZEROPAGE | .ZEROPAGE_X | .ZEROPAGE_Y =>
    let r := my_read_addr m mode
    let r2 := my6502_read r.2 r.1
    (r.1 * 65536 + mode.toNat * 256 + r2.1, r2.2)
  | .IMMEDIATE =>
    let addr := m.pc % 65536
    let m1 := { m with pc := (m.pc + 1) % 65536 }
    let r := my6502_read m1 addr
    (addr * 65536 + mode.toNat * 256 + r.1, r.2)
  | _ =>
    (MyAddr.ACCUMULATOR.toNat * 256 + m.ac % 256, m)

/-- Function `my_write_op`: write a result byte back to the destination recorded in
a packed operand, either memory or the accumulator. -/
def my_write_op (m : Machine) (op value : Nat) : Machine :=
  let mode := op / 256 % 256
  let addr := op / 65536
  if mode ≠ MyAddr.ACCUMULATOR.toNat then my6502_write m addr value
  else { m with ac := value % 256 }

/-- Function `my_adc`: add with carry.  `result` is the 16-bit sum; the overflow
test compares the sign bits before the accumulator is truncated. -/
def my_adc (m : Machine) (value : Nat) : Machine :=
  let same_sign := (m.ac &&& 0x80) = (value &&& 0x80)
  let result := (m.ac + value +
    (if m.sr &&& SR_FLAG_CARRY ≠ 0 then 1 else 0)) % 65536
  let m1 :=
    if same_sign ∧ result &&& 0x80 ≠ value &&& 0x80 then
      SR_SET m SR_FLAG_OVERFLOW
    else SR_CLR m SR_FLAG_OVERFLOW
  let m2 := { m1 with ac := result % 256 }
  my_update_sr_with_carry m2 m2.ac (SR_FLAG_NEGATIVE ||| SR_FLAG_ZERO)
    (if result ≥ 0x100 then 1 else 0)

def my_and (m : Machine) (value : Nat) : Machine :=
  let m1 := { m with ac := m.ac &&& value }
  my_update_sr m1 m1.ac (SR_FLAG_NEGATIVE ||| SR_FLAG_ZERO)

def my_asl (m : Machine) (op : Nat) : Machine :=
  let value := op % 256
  let msb := value &&& 0x80
  let value1 := (value <<< 1) % 256
  let m1 := my_update_sr_with_carry m value1
    (SR_FLAG_NEGATIVE ||| SR_FLAG_ZERO) msb
  my_write_op m1 op value1

def my_bcs (m : Machine) (addr : Nat) : Machine :=
  if m.sr &&& SR_FLAG_CARRY ≠ 0 then { m with pc := addr % 65536 } else m

def my_bit (m : Machine) (value : Nat) : Machine :=
  let m1 :=
    if value &&& SR_FLAG_NEGATIVE ≠ 0 then SR_SET m SR_FLAG_NEGATIVE
    else SR_CLR m SR_FLAG_NEGATIVE
  let m2 :=
    if value &&& SR_FLAG_OVERFLOW ≠ 0 then SR_SET m1 SR_FLAG_OVERFLOW
    else SR_CLR m1 SR_FLAG_OVERFLOW
  if m2.ac &&& value ≠ 0 then SR_CLR m2 SR_FLAG_ZERO
  else SR_SET m2 SR_FLAG_ZERO

def my_bne (m : Machine) (addr : Nat) : Machine :=
  if ¬ m.sr &&& SR_FLAG_ZERO ≠ 0 then { m with pc := addr % 65536 } else m

def my_bcc (m : Machine) (addr : Nat) : Machine :=
  if ¬ m.sr &&& SR_FLAG_CARRY ≠ 0 then { m with pc := addr % 65536 } else m

def my_beq (m : Machine) (addr : Nat) : Machine :=
  if m.sr &&& SR_FLAG_ZERO ≠ 0 then { m with pc := addr % 65536 } else m

def my_bmi (m : Machine) (addr : Nat) : Machine :=
  if m.sr &&& SR_FLAG_NEGATIVE ≠ 0 then { m with pc := addr % 65536 } else m

def my_bpl (m : Machine) (addr : Nat) : Machine :=
  if ¬ m.sr &&& SR_FLAG_NEGATIVE ≠ 0 then { m with pc := addr % 65536 } else m

/-- Function `my_brk`: push PC+1 high then low, push SR with B set, load the IRQ
vector, set I. -/
def my_brk (m : Machine) : Machine :=
  let return_addr := (m.pc + 1) % 65536
  let m1 := my_push m (return_addr >>> 8)
  let m2 := my_push m1 return_addr
  let m3 := my_push m2 (m2.sr ||| SR_FLAG_BREAK)
  let r1 := my6502_read m3 IRQ_OFFSET
  let r2 := my6502_read r1.2 (IRQ_OFFSET + 1)
  let m4 := { r2.2 with pc := r1.1 + r2.1 * 256 }
  { m4 with sr := m4.sr ||| SR_FLAG_INTERRUPT }

def my_bvc (m : Machine) (addr : Nat) : Machine :=
  if ¬ m.sr &&& SR_FLAG_OVERFLOW ≠ 0 then { m with pc := addr % 65536 } else m

def my_bvs (m : Machine) (addr : Nat) : Machine :=
  if m.sr &&& SR_FLAG_OVERFLOW ≠ 0 then { m with pc := addr % 65536 } else m

def my_clc (m : Machine) : Machine :=
  { m with sr := m.sr &&& (0xFF ^^^ SR_FLAG_CARRY) }

def my_cld (m : Machine) : Machine :=
  { m with sr := m.sr &&& (0xFF ^^^ SR_FLAG_DECIMAL) }

def my_cli (m : Machine) : Machine :=
  { m with sr := m.sr &&& (0xFF ^^^ SR_FLAG_INTERRUPT) }

def my_clv (m : Machine) : Machine :=
  { m with sr := m.sr &&& (0xFF ^^^ SR_FLAG_OVERFLOW) }

/-- Function `my_cmp`: the difference is taken as an 8-bit two's-complement value. -/
def my_cmp (m : Machine) (value : Nat) : Machine :=
  my_update_sr_with_carry m ((m.ac + 256 - value) % 256)
    (SR_FLAG_NEGATIVE ||| SR_FLAG_ZERO) (if m.ac ≥ value then 1 else 0)

def my_cpx (m : Machine) (value : Nat) : Machine :=
  my_update_sr_with_carry m ((m.x + 256 - value) % 256)
    (SR_FLAG_NEGATIVE ||| SR_FLAG_ZERO) (if m.x ≥ value then 1 else 0)

def my_cpy (m : Machine) (value : Nat) : Machine :=
  my_update_sr_with_carry m ((m.y + 256 - value) % 256)
    (SR_FLAG_NEGATIVE ||| SR_FLAG_ZERO) (if m.y ≥ value then 1 else 0)

def my_dec (m : Machine) (addr : Nat) : Machine :=
  let r := my6502_read m addr
  let value := (r.1 + 255) % 256
  let m1 := my_update_sr r.2 value (SR_FLAG_NEGATIVE ||| SR_FLAG_ZERO)
  my6502_write m1 addr value

def my_dex (m : Machine) : Machine :=
  let m1 := { m with x := (m.x + 255) % 256 }
  my_update_sr m1 m1.x (SR_FLAG_NEGATIVE ||| SR_FLAG_ZERO)

def my_dey (m : Machine) : Machine :=
  let m1 := { m with y := (m.y + 255) % 256 }
  my_update_sr m1 m1.y (SR_FLAG_NEGATIVE ||| SR_FLAG_ZERO)

def my_eor (m : Machine) (value : Nat) : Machine :=
  let m1 := { m with ac := m.ac ^^^ value }
  my_update_sr m1 m1.ac (SR_FLAG_NEGATIVE ||| SR_FLAG_ZERO)

def my_jmp (m : Machine) (addr : Nat) : Machine :=
  { m with pc := addr % 65536 }

/-- Function `my_jsr`: push `PC - 1` (the address of the last byte of the JSR
instruction) high byte first, then low byte, then jump. -/
def my_jsr (m : Machine) (addr : Nat) : Machine :=
  let old_pc := (m.pc + 65535) % 65536
  let m1 := my_push m (old_pc >>> 8)
  let m2 := my_push m1 old_pc
  { m2 with pc := addr % 65536 }

def my_inc (m : Machine) (addr : Nat) : Machine :=
  let r := my6502_read m addr
  let value := (r.1 + 1) % 256
  let m1 := my_update_sr r.2 value (SR_FLAG_NEGATIVE ||| SR_FLAG_ZERO)
  my6502_write m1 addr value

def my_inx (m : Machine) : Machine :=
  let m1 := { m with x := (m.x + 1) % 256 }
  my_update_sr m1 m1.x (SR_FLAG_NEGATIVE ||| SR_FLAG_ZERO)

def my_iny (m : Machine) : Machine :=
  let m1 := { m with y := (m.y + 1) % 256 }
  my_update_sr m1 m1.y (SR_FLAG_NEGATIVE ||| SR_FLAG_ZERO)

def my_lda (m : Machine) (value : Nat) : Machine :=
  let m1 := { m with ac := value }
  my_update_sr m1 m1.ac (SR_FLAG_NEGATIVE ||| SR_FLAG_ZERO)

def my_ldx (m : Machine) (value : Nat) : Machine :=
  let m1 := { m with x := value }
  my_update_sr m1 m1.x (SR_FLAG_NEGATIVE ||| SR_FLAG_ZERO)

def my_ldy (m : Machine) (value : Nat) : Machine :=
  let m1 := { m with y := value }
  my_update_sr m1 m1.y (SR_FLAG_NEGATIVE ||| SR_FLAG_ZERO)

def my_lsr (m : Machine) (op : Nat) : Machine :=
  let value := op % 256
  let lsb := value &&& 0x01
  let value1 := value >>> 1
  let m1 := my_update_sr_with_carry m value1
    (SR_FLAG_NEGATIVE ||| SR_FLAG_ZERO) lsb
  my_write_op m1 op value1

def my_nop (m : Machine) : Machine := m

def my_ora (m : Machine) (value : Nat) : Machine :=
  let m1 := { m with ac := m.ac ||| value }
  my_update_sr m1 m1.ac (SR_FLAG_NEGATIVE ||| SR_FLAG_ZERO)

def my_rol (m : Machine) (op : Nat) : Machine :=
  let value := op % 256
  let msb := value &&& 0x80
  let value1 := ((value <<< 1) + (m.sr &&& SR_FLAG_CARRY)) % 256
  let m1 := my_update_sr_with_carry m value1
    (SR_FLAG_NEGATIVE ||| SR_FLAG_ZERO) msb
  my_write_op m1 op value1

def my_ror (m : Machine) (op : Nat) : Machine :=
  let value := op % 256
  let lsb := value &&& 0x01
  let value1 := ((value >>> 1) +
    (if m.sr &&& SR_FLAG_CARRY ≠ 0 then 0x80 else 0x00)) % 256
  let m1 := my_update_sr_with_carry m value1
    (SR_FLAG_NEGATIVE ||| SR_FLAG_ZERO) lsb
  my_write_op m1 op value1

/-- Function `my_rti`: pull SR (or-ing in the B flag), then PC low byte, then PC
high byte.  The low byte is below 256, so the or of the shifted high byte
is plain addition. -/
def my_rti (m : Machine) : Machine :=
  let r := my_pop m
  let m1 := { r.2 with sr := r.1 ||| SR_FLAG_BREAK }
  let r2 := my_pop m1
  let m2 := { r2.2 with pc := r2.1 }
  let r3 := my_pop m2
  { r3.2 with pc := m2.pc + r3.1 * 256 }

/-- Function `my_rts`: pull PC low then high, then add one (see `my_jsr`). -/
def my_rts (m : Machine) : Machine :=
  let r := my_pop m
  let m1 := { r.2 with pc := r.1 }
  let r2 := my_pop m1
  let m2 := { r2.2 with pc := m1.pc + r2.1 * 256 }
  { m2 with pc := (m2.pc + 1) % 65536 }

def my_pha (m : Machine) : Machine :=
  my_push m m.ac

/-- Function `my_php`: push SR with the break flag or-ed in. -/
def my_php (m : Machine) : Machine :=
  my_push m (m.sr ||| SR_FLAG_BREAK)

def my_pla (m : Machine) : Machine :=
  let r := my_pop m
  let m1 := { r.2 with ac := r.1 }
  my_update_sr m1 m1.ac (SR_FLAG_NEGATIVE ||| SR_FLAG_ZERO)

/-- Function `my_plp`: pull SR, forcing the unused bit. -/
def my_plp (m : Machine) : Machine :=
  let r := my_pop m
  { r.2 with sr := r.1 ||| SR_FLAG_UNUSED }

/-- Function `my_sbc`: implemented as `my_adc(~value)`; the `uint8_t` parameter
conversion turns the complement of a byte into `value ^^^ 0xFF`. -/
def my_sbc (m : Machine) (value : Nat) : Machine :=
  my_adc m (value ^^^ 0xFF)

def my_sec (m : Machine) : Machine :=
  { m with sr := m.sr ||| SR_FLAG_CARRY }

def my_sed (m : Machine) : Machine :=
  { m with sr := m.sr ||| SR_FLAG_DECIMAL }

def my_sei (m : Machine) : Machine :=
  { m with sr := m.sr ||| SR_FLAG_INTERRUPT }

def my_sta (m : Machine) (addr : Nat) : Machine :=
  my6502_write m addr m.ac

def my_stx (m : Machine) (addr : Nat) : Machine :=
  my6502_write m addr m.x

def my_sty (m : Machine) (addr : Nat) : Machine :=
  my6502_write m addr m.y

def my_tax (m : Machine) : Machine :=
  let m1 := { m with x := m.ac }
  my_update_sr m1 m1.x (SR_FLAG_NEGATIVE ||| SR_FLAG_ZERO)

def my_tay (m : Machine) : Machine :=
  let m1 := { m with y := m.ac }
  my_update_sr m1 m1.y (SR_FLAG_NEGATIVE ||| SR_FLAG_ZERO)

def my_tsx (m : Machine) : Machine :=
  let m1 := { m with x := m.sp }
  my_update_sr m1 m1.x (SR_FLAG_NEGATIVE ||| SR_FLAG_ZERO)

def my_txa (m : Machine) : Machine :=
  let m1 := { m with ac := m.x }
  my_update_sr m1 m1.ac (SR_FLAG_NEGATIVE ||| SR_FLAG_ZERO)

def my_txs (m : Machine) : Machine :=
  { m with sp := m.x }

def my_tya (m : Machine) : Machine :=
  let m1 := { m with ac := m.y }
  my_update_sr m1 m1.ac (SR_FLAG_NEGATIVE ||| SR_FLAG_ZERO)

/-- Failure of one `step`.  The C dispatcher hits `assert(0)` on an
undefined opcode, a fatal stop; the failure is modelled as an error value
carrying the offending opcode byte and the machine state live at the
failure point (registers untouched, PC already advanced past the opcode). -/
inductive StepError where
  | illegalOpcode (opcode : Nat) (st : Machine)

/-- Dispatch table of the `switch` in `my6502_step`: one entry per
`OP(code, action)` line, in the source's order, pairing the case label
with the action.  Packed operands are narrowed to their low byte at the
call boundary where the C handler takes a `uint8_t` parameter. -/
def opcodeTable : List (Nat × (Machine → Machine)) :=
  [(0x00, my_brk),
   (0x01, fun m => let r := my_read_op m .INDIRECT_X; my_ora r.2 (r.1 % 256)),
   (0x05, fun m => let r := my_read_op m .ZEROPAGE; my_ora r.2 (r.1 % 256)),
   (0x06, fun m => let r := my_read_op m .ZEROPAGE; my_asl r.2 r.1),
   (0x08, my_php),
   (0x09, fun m => let r := my_read_op m .IMMEDIATE; my_ora r.2 (r.1 % 256)),
   (0x0A, fun m => let r := my_read_op m .ACCUMULATOR; my_asl r.2 r.1),
   (0x0D, fun m => let r := my_read_op m .ABSOLUTE; my_ora r.2 (r.1 % 256)),
   (0x0E, fun m => let r := my_read_op m .ABSOLUTE; my_asl r.2 r.1),
   (0x10, fun m => let r := my_read_addr m .RELATIVE; my_bpl r.2 r.1),
   (0x11, fun m => let r := my_read_op m .INDIRECT_Y; my_ora r.2 (r.1 % 256)),
   (0x15, fun m => let r := my_read_op m .ZEROPAGE_X; my_ora r.2 (r.1 % 256)),
   (0x16, fun m => let r := my_read_op m .ZEROPAGE_X; my_asl r.2 r.1),
   (0x18, my_clc),
   (0x19, fun m => let r := my_read_op m .ABSOLUTE_Y; my_ora r.2 (r.1 % 256)),
   (0x1D, fun m => let r := my_read_op m .ABSOLUTE_X; my_ora r.2 (r.1 % 256)),
   (0x1E, fun m => let r := my_read_op m .ABSOLUTE_X; my_asl r.2 r.1),
   (0x20, fun m => let r := my_read_addr m .ABSOLUTE; my_jsr r.2 r.1),
   (0x21, fun m => let r := my_read_op m .INDIRECT_X; my_and r.2 (r.1 % 256)),
   (0x24, fun m => let r := my_read_op m .ZEROPAGE; my_bit r.2 (r.1 % 256)),
   (0x25, fun m => let r := my_read_op m .ZEROPAGE; my_and r.2 (r.1 % 256)),
   (0x26, fun m => let r := my_read_op m .ZEROPAGE; my_rol r.2 r.1),
   (0x28, my_plp),
   (0x29, fun m => let r := my_read_op m .IMMEDIATE; my_and r.2 (r.1 % 256)),
   (0x2A, fun m => let r := my_read_op m .ACCUMULATOR; my_rol r.2 r.1),
   (0x2C, fun m => let r := my_read_op m .ABSOLUTE; my_bit r.2 (r.1 % 256)),
   (0x2D, fun m => let r := my_read_op m .ABSOLUTE; my_and r.2 (r.1 % 256)),
   (0x2E, fun m => let r := my_read_op m .ABSOLUTE; my_rol r.2 r.1),
   (0x30, fun m => let r := my_read_addr m .RELATIVE; my_bmi r.2 r.1),
   (0x31, fun m => let r := my_read_op m .INDIRECT_Y; my_and r.2 (r.1 % 256)),
   (0x35, fun m => let r := my_read_op m .ZEROPAGE_X; my_and r.2 (r.1 % 256)),
   (0x36, fun m => let r := my_read_op m .ZEROPAGE_X; my_rol r.2 r.1),
   (0x38, my_sec),
   (0x39, fun m => let r := my_read_op m .ABSOLUTE_Y; my_and r.2 (r.1 % 256)),
   (0x3D, fun m => let r := my_read_op m .ABSOLUTE_X; my_and r.2 (r.1 % 256)),
   (0x3E, fun m => let r := my_read_op m .ABSOLUTE_X; my_rol r.2 r.1),
   (0x40, my_rti),
   (0x41, fun m => let r := my_read_op m .INDIRECT_X; my_eor r.2 (r.1 % 256)),
   (0x45, fun m => let r := my_read_op m .ZEROPAGE; my_eor r.2 (r.1 % 256)),
   (0x46, fun m => let r := my_read_op m .ZEROPAGE; my_lsr r.2 r.1),
   (0x48, my_pha),
   (0x49, fun m => let r := my_read_op m .IMMEDIATE; my_eor r.2 (r.1 % 256)),
   (0x4A, fun m => let r := my_read_op m .ACCUMULATOR; my_lsr r.2 r.1),
   (0x4C, fun m => let r := my_read_addr m .ABSOLUTE; my_jmp r.2 r.1),
   (0x4D, fun m => let r := my_read_op m .ABSOLUTE; my_eor r.2 (r.1 % 256)),
   (0x4E, fun m => let r := my_read_op m .ABSOLUTE; my_lsr r.2 r.1),
   (0x50, fun m => let r := my_read_addr m .RELATIVE; my_bvc r.2 r.1),
   (0x51, fun m => let r := my_read_op m .INDIRECT_Y; my_eor r.2 (r.1 % 256)),
   (0x55, fun m => let r := my_read_op m .ZEROPAGE_X; my_eor r.2 (r.1 % 256)),
   (0x56, fun m => let r := my_read_op m .ZEROPAGE_X; my_lsr r.2 r.1),
   (0x58, my_cli),
   (0x59, fun m => let r := my_read_op m .ABSOLUTE_Y; my_eor r.2 (r.1 % 256)),
   (0x5D, fun m => let r := my_read_op m .ABSOLUTE_X; my_eor r.2 (r.1 % 256)),
   (0x5E, fun m => let r := my_read_op m .ABSOLUTE_X; my_lsr r.2 r.1),
   (0x60, my_rts),
   (0x61, fun m => let r := my_read_op m .INDIRECT_X; my_adc r.2 (r.1 % 256)),
   (0x65, fun m => let r := my_read_op m .ZEROPAGE; my_adc r.2 (r.1 % 256)),
   (0x66, fun m => let r := my_read_op m .ZEROPAGE; my_ror r.2 r.1),
   (0x68, my_pla),
   (0x69, fun m => let r := my_read_op m .IMMEDIATE; my_adc r.2 (r.1 % 256)),
   (0x6A, fun m => let r := my_read_op m .ACCUMULATOR; my_ror r.2 r.1),
   (0x6C, fun m => let r := my_read_addr m .INDIRECT; my_jmp r.2 r.1),
   (0x6D, fun m => let r := my_read_op m .ABSOLUTE; my_adc r.2 (r.1 % 256)),
   (0x6E, fun m => let r := my_read_op m .ABSOLUTE; my_ror r.2 r.1),
   (0x70, fun m => let r := my_read_addr m .RELATIVE; my_bvs r.2 r.1),
   (0x71, fun m => let r := my_read_op m .INDIRECT_Y; my_adc r.2 (r.1 % 256)),
   (0x75, fun m => let r := my_read_op m .ZEROPAGE_X; my_adc r.2 (r.1 % 256)),
   (0x76, fun m => let r := my_read_op m .ZEROPAGE_X; my_ror r.2 r.1),
   (0x78, my_sei),
   (0x79, fun m => let r := my_read_op m .ABSOLUTE_Y; my_adc r.2 (r.1 % 256)),
   (0x7D, fun m => let r := my_read_op m .ABSOLUTE_X; my_adc r.2 (r.1 % 256)),
   (0x7E, fun m => let r := my_read_op m .ABSOLUTE_X; my_ror r.2 r.1),
   (0x81, fun m => let r := my_read_addr m .INDIRECT_X; my_sta r.2 r.1),
   (0x84, fun m => let r := my_read_addr m .ZEROPAGE; my_sty r.2 r.1),
   (0x85, fun m => let r := my_read_addr m .ZEROPAGE; my_sta r.2 r.1),
   (0x86, fun m => let r := my_read_addr m .ZEROPAGE; my_stx r.2 r.1),
   (0x88, my_dey),
   (0x8A, my_txa),
   (0x8C, fun m => let r := my_read_addr m .ABSOLUTE; my_sty r.2 r.1),
   (0x8D, fun m => let r := my_read_addr m .ABSOLUTE; my_sta r.2 r.1),
   (0x8E, fun m => let r := my_read_addr m .ABSOLUTE; my_stx r.2 r.1),
   (0x90, fun m => let r := my_read_addr m .RELATIVE; my_bcc r.2 r.1),
   (0x91, fun m => let r := my_read_addr m .INDIRECT_Y; my_sta r.2 r.1),
   (0x94, fun m => let r := my_read_addr m .ZEROPAGE_X; my_sty r.2 r.1),
   (0x95, fun m => let r := my_read_addr m .ZEROPAGE_X; my_sta r.2 r.1),
   (0x96, fun m => let r := my_read_addr m .ZEROPAGE_Y; my_stx r.2 r.1),
   (0x98, my_tya),
   (0x99, fun m => let r := my_read_addr m .ABSOLUTE_Y; my_sta r.2 r.1),
   (0x9A, my_txs),
   (0x9D, fun m => let r := my_read_addr m .ABSOLUTE_X; my_sta r.2 r.1),
   (0xA0, fun m => let r := my_read_op m .IMMEDIATE; my_ldy r.2 (r.1 % 256)),
   (0xA1, fun m => let r := my_read_op m .INDIRECT_X; my_lda r.2 (r.1 % 256)),
   (0xA2, fun m => let r := my_read_op m .IMMEDIATE; my_ldx r.2 (r.1 % 256)),
   (0xA4, fun m => let r := my_read_op m .ZEROPAGE; my_ldy r.2 (r.1 % 256)),
   (0xA5, fun m => let r := my_read_op m .ZEROPAGE; my_lda r.2 (r.1 % 256)),
   (0xA6, fun m => let r := my_read_op m .ZEROPAGE; my_ldx r.2 (r.1 % 256)),
   (0xA8, my_tay),
   (0xA9, fun m => let r := my_read_op m .IMMEDIATE; my_lda r.2 (r.1 % 256)),
   (0xAA, my_tax),
   (0xAC, fun m => let r := my_read_op m .ABSOLUTE; my_ldy r.2 (r.1 % 256)),
   (0xAD, fun m => let r := my_read_op m .ABSOLUTE; my_lda r.2 (r.1 % 256)),
   (0xAE, fun m => let r := my_read_op m .ABSOLUTE; my_ldx r.2 (r.1 % 256)),
   (0xB0, fun m => let r := my_read_addr m .RELATIVE; my_bcs r.2 r.1),
   (0xB1, fun m => let r := my_read_op m .INDIRECT_Y; my_lda r.2 (r.1 % 256)),
   (0xB4, fun m => let r := my_read_op m .ZEROPAGE_X; my_ldy r.2 (r.1 % 256)),
   (0xB5, fun m => let r := my_read_op m .ZEROPAGE_X; my_lda r.2 (r.1 % 256)),
   (0xB6, fun m => let r := my_read_op m .ZEROPAGE_Y; my_ldx r.2 (r.1 % 256)),
   (0xB8, my_clv),
   (0xB9, fun m => let r := my_read_op m .ABSOLUTE_Y; my_lda r.2 (r.1 % 256)),
   (0xBA, my_tsx),
   (0xBC, fun m => let r := my_read_op m .ABSOLUTE_X; my_ldy r.2 (r.1 % 256)),
   (0xBD, fun m => let r := my_read_op m .ABSOLUTE_X; my_lda r.2 (r.1 % 256)),
   (0xBE, fun m => let r := my_read_op m .ABSOLUTE_Y; my_ldx r.2 (r.1 % 256)),
   (0xC0, fun m => let r := my_read_op m .IMMEDIATE; my_cpy r.2 (r.1 % 256)),
   (0xC1, fun m => let r := my_read_op m .INDIRECT_X; my_cmp r.2 (r.1 % 256)),
   (0xC4, fun m => let r := my_read_op m .ZEROPAGE; my_cpy r.2 (r.1 % 256)),
   (0xC5, fun m => let r := my_read_op m .ZEROPAGE; my_cmp r.2 (r.1 % 256)),
   (0xC6, fun m => let r := my_read_addr m .ZEROPAGE; my_dec r.2 r.1),
   (0xC8, my_iny),
   (0xC9, fun m => let r := my_read_op m .IMMEDIATE; my_cmp r.2 (r.1 % 256)),
   (0xCA, my_dex),
   (0xCC, fun m => let r := my_read_op m .ABSOLUTE; my_cpy r.2 (r.1 % 256)),
   (0xCD, fun m => let r := my_read_op m .ABSOLUTE; my_cmp r.2 (r.1 % 256)),
   (0xCE, fun m => let r := my_read_addr m .ABSOLUTE; my_dec r.2 r.1),
   (0xD0, fun m => let r := my_read_addr m .RELATIVE; my_bne r.2 r.1),
   (0xD1, fun m => let r := my_read_op m .INDIRECT_Y; my_cmp r.2 (r.1 % 256)),
   (0xD5, fun m => let r := my_read_op m .ZEROPAGE_X; my_cmp r.2 (r.1 % 256)),
   (0xD6, fun m => let r := my_read_addr m .ZEROPAGE_X; my_dec r.2 r.1),
   (0xD8, my_cld),
   (0xD9, fun m => let r := my_read_op m .ABSOLUTE_Y; my_cmp r.2 (r.1 % 256)),
   (0xDD, fun m => let r := my_read_op m .ABSOLUTE_X; my_cmp r.2 (r.1 % 256)),
   (0xDE, fun m => let r := my_read_addr m .ABSOLUTE_X; my_dec r.2 r.1),
   (0xE0, fun m => let r := my_read_op m .IMMEDIATE; my_cpx r.2 (r.1 % 256)),
   (0xE1, fun m => let r := my_read_op m .INDIRECT_X; my_sbc r.2 (r.1 % 256)),
   (0xE6, fun m => let r := my_read_addr m .ZEROPAGE; my_inc r.2 r.1),
   (0xE4, fun m => let r := my_read_op m .ZEROPAGE; my_cpx r.2 (r.1 % 256)),
   (0xE5, fun m => let r := my_read_op m .ZEROPAGE; my_sbc r.2 (r.1 % 256)),
   (0xE8, my_inx),
   (0xE9, fun m => let r := my_read_op m .IMMEDIATE; my_sbc r.2 (r.1 % 256)),
   (0xEA, my_nop),
   (0xEC, fun m => let r := my_read_op m .ABSOLUTE; my_cpx r.2 (r.1 % 256)),
   (0xED, fun m => let r := my_read_op m .ABSOLUTE; my_sbc r.2 (r.1 % 256)),
   (0xEE, fun m => let r := my_read_addr m .ABSOLUTE; my_inc r.2 r.1),
   (0xF0, fun m => let r := my_read_addr m .RELATIVE; my_beq r.2 r.1),
   (0xF1, fun m => let r := my_read_op m .INDIRECT_Y; my_sbc r.2 (r.1 % 256)),
   (0xF5, fun m => let r := my_read_op m .ZEROPAGE_X; my_sbc r.2 (r.1 % 256)),
   (0xF6, fun m => let r := my_read_addr m .ZEROPAGE_X; my_inc r.2 r.1),
   (0xF8, my_sed),
   (0xF9, fun m => let r := my_read_op m .ABSOLUTE_Y; my_sbc r.2 (r.1 % 256)),
   (0xFD, fun m => let r := my_read_op m .ABSOLUTE_X; my_sbc r.2 (r.1 % 256)),
   (0xFE, fun m => let r := my_read_addr m .ABSOLUTE_X; my_inc r.2 r.1)]

/-- Case selection of the `switch`: find the entry labelled with the
opcode byte, if any. -/
def opcodeHandler (opcode : Nat) : Option (Machine → Machine) :=
  opcodeTable.lookup opcode

/-- Body of the `switch`: a hit in the dispatch table runs the action; a
miss is the fatal `assert(0)` default, modelled as a final error carrying
the opcode byte and the machine state live at the failure point. -/
def execOpcode (opcode : Nat) (m : Machine) : Except StepError Machine :=
  match opcodeHandler opcode with
  | some h => .ok (h m)
  | none => .error (.illegalOpcode opcode m)

/-- Function `my6502_step`: fetch one opcode byte at PC, advance PC, dispatch. -/
def my6502_step (m : Machine) : Except StepError Machine :=
  let r := my6502_read m m.pc
  let m1 := { r.2 with pc := (r.2.pc + 1) % 65536 }
  execOpcode r.1 m1

/-- The 151 opcodes of the original NMOS 6502 instruction set, written out
from the spec's reference (the masswerk opcode table), grouped by
mnemonic.  This list follows the spec's words, independently of the
dispatcher, so that the dispatcher's coverage can be checked against it. -/
def specOfficialNMOSOpcodes : List Nat :=
  [0x69, 0x65, 0x75, 0x6D, 0x7D, 0x79, 0x61, 0x71,  -- ADC
   0x29, 0x25, 0x35, 0x2D, 0x3D, 0x39, 0x21, 0x31,  -- AND
   0x0A, 0x06, 0x16, 0x0E, 0x1E,                    -- ASL
   0x90, 0xB0, 0xF0, 0x30, 0xD0, 0x10, 0x50, 0x70,  -- branches
   0x24, 0x2C,                                      -- BIT
   0x00,                                            -- BRK
   0x18, 0xD8, 0x58, 0xB8,                          -- CLC CLD CLI CLV
   0xC9, 0xC5, 0xD5, 0xCD, 0xDD, 0xD9, 0xC1, 0xD1,  -- CMP
   0xE0, 0xE4, 0xEC,                                -- CPX
   0xC0, 0xC4, 0xCC,                                -- CPY
   0xC6, 0xD6, 0xCE, 0xDE,                          -- DEC
   0xCA, 0x88,                                      -- DEX DEY
   0x49, 0x45, 0x55, 0x4D, 0x5D, 0x59, 0x41, 0x51,  -- EOR
   0xE6, 0xF6, 0xEE, 0xFE,                          -- INC
   0xE8, 0xC8,                                      -- INX INY
   0x4C, 0x6C,                                      -- JMP
   0x20,                                            -- JSR
   0xA9, 0xA5, 0xB5, 0xAD, 0xBD, 0xB9, 0xA1, 0xB1,  -- LDA
   0xA2, 0xA6, 0xB6, 0xAE, 0xBE,                    -- LDX
   0xA0, 0xA4, 0xB4, 0xAC, 0xBC,                    -- LDY
   0x4A, 0x46, 0x56, 0x4E, 0x5E,                    -- LSR
   0xEA,                                            -- NOP
   0x09, 0x05, 0x15, 0x0D, 0x1D, 0x19, 0x01, 0x11,  -- ORA
   0x48, 0x08, 0x68, 0x28,                          -- PHA PHP PLA PLP
   0x2A, 0x26, 0x36, 0x2E, 0x3E,                    -- ROL
   0x6A, 0x66, 0x76, 0x6E, 0x7E,                    -- ROR
   0x40, 0x60,                                      -- RTI RTS
   0xE9, 0xE5, 0xF5, 0xED, 0xFD, 0xF9, 0xE1, 0xF1,  -- SBC
   0x38, 0xF8, 0x78,                                -- SEC SED SEI
   0x85, 0x95, 0x8D, 0x9D, 0x99, 0x81, 0x91,        -- STA
   0x86, 0x96, 0x8E,                                -- STX
   0x84, 0x94, 0x8C,                                -- STY
   0xAA, 0xA8, 0xBA, 0x8A, 0x9A, 0x98]              -- TAX TAY TSX TXA TXS TYA

/-! ### Sample machines and helper definitions used by the witnesses -/

/-- A machine in the post-reset register state over zeroed memory. -/
def M0 : Machine :=
  { pc := 0x0400, ac := 0, x := 0, y := 0, sr := 0x20, sp := 0xFD,
    mem := fun _ => 0, trace := [] }

/-- Memory image holding a single RTI instruction at the entry point; the
stack page reads as zero bytes. -/
def memRtiZero : Nat → Nat := fun a => if a = 0x0400 then 0x40 else 0

/-- Memory image with RTI at the entry point and a crafted stack frame:
status byte `0x84` (bit 5 and B clear), return address `0x1234`. -/
def memRtiFrame : Nat → Nat := fun a =>
  if a = 0x0400 then 0x40 else
  if a = 0x01FB then 0x84 else
  if a = 0x01FC then 0x34 else
  if a = 0x01FD then 0x12 else 0

/-- Machine about to execute PHP with every SR bit clear, followed by
PLP. -/
def phpMachine : Machine :=
  { pc := 0x0400, ac := 0, x := 0, y := 0, sr := 0x00, sp := 0xFD,
    mem := fun a => if a = 0x0400 then 0x08 else
      if a = 0x0401 then 0x28 else 0,
    trace := [] }

/-- A machine whose memory serves the undefined opcode `0x02`
everywhere. -/
def illegalOpMachine : Machine := { M0 with mem := fun _ => 0x02 }

/-- Projection of a successful step, used to name the machine that a
concrete sample run produces. -/
def stepOk (m : Machine) : Machine :=
  match my6502_step m with
  | .ok m1 => m1
  | .error _ => m

/-- Machine about to run the spec's JSR/RTS scenario: `0x0400: 20 05 04`,
`0x0405: 60`. -/
def jsrMachine : Machine :=
  { pc := 0x0400, ac := 0, x := 0, y := 0, sr := 0x20, sp := 0xFD,
    mem := fun a => if a = 0x0400 then 0x20 else
      if a = 0x0401 then 0x05 else
      if a = 0x0402 then 0x04 else
      if a = 0x0405 then 0x60 else 0,
    trace := [] }

/-- Machine about to execute PHP then PLP with a mixed starting SR. -/
def phpPlpMachine : Machine :=
  { pc := 0x0400, ac := 1, x := 2, y := 3, sr := 0xC3, sp := 0xFD,
    mem := fun a => if a = 0x0400 then 0x08 else
      if a = 0x0401 then 0x28 else 0,
    trace := [] }

/-- Machine about to execute a taken BEQ with all flags of interest set. -/
def branchMachine : Machine :=
  { pc := 0x0400, ac := 5, x := 6, y := 7, sr := 0x22, sp := 0xFD,
    mem := fun a => if a = 0x0400 then 0xF0 else
      if a = 0x0401 then 0x02 else 0,
    trace := [] }

/-! ### General helper lemmas about byte-level arithmetic -/

theorem land_255_eq_mod (n : Nat) : n &&& 255 = n % 256 := by
  have h : (255 : Nat) = 2 ^ 8 - 1 := rfl
  rw [h, Nat.and_pow_two_sub_one_eq_mod]

theorem xor_255_eq_sub (b : Nat) (hb : b < 256) : b ^^^ 255 = 255 - b := by
  have h : ∀ v : Fin 256, v.val ^^^ 255 = 255 - v.val := by decide
  exact h ⟨b, hb⟩

theorem and_128_eq (a : Nat) : a &&& 128 = if a.testBit 7 then 128 else 0 := by
  have h : (128 : Nat) = 2 ^ 7 := rfl
  rw [h, Nat.and_two_pow]
  cases h7 : a.testBit 7 <;> simp [h7]

theorem and_1_ne_zero (n : Nat) : (n &&& 1 ≠ 0) ↔ n % 2 = 1 := by
  rw [Nat.and_one_is_mod]
  omega

/-! ### Claim C10: reset -/

/-- Claim C10: for every prior register state and every `entry_pc`,
`my6502_reset` performs no bus reads or writes: it sets `PC = entry_pc`,
`AC = X = Y = 0`, `SP = 0xFD`, `SR = 0x20` purely from its argument,
independent of the prior register state, and leaves host memory and the
bus access log untouched. -/
theorem reset_frame (m : Machine) (entry : Nat) (h : entry < 65536) :
    (my6502_reset m entry).pc = entry ∧
    (my6502_reset m entry).ac = 0 ∧
    (my6502_reset m entry).x = 0 ∧
    (my6502_reset m entry).y = 0 ∧
    (my6502_reset m entry).sp = 0xFD ∧
    (my6502_reset m entry).sr = 0x20 ∧
    (my6502_reset m entry).mem = m.mem ∧
    (my6502_reset m entry).trace = m.trace := by
  refine ⟨?_, rfl, rfl, rfl, rfl, rfl, rfl, rfl⟩
  simpa [my6502_reset] using Nat.mod_eq_of_lt h

/-- Witness for C10 at a concrete prior state and entry point. -/
theorem reset_frame_witness :
    (0x0400 : Nat) < 65536 ∧
    ((my6502_reset { M0 with ac := 7, sr := 0 } 0x0400).pc = 0x0400 ∧
     (my6502_reset { M0 with ac := 7, sr := 0 } 0x0400).ac = 0 ∧
     (my6502_reset { M0 with ac := 7, sr := 0 } 0x0400).x = 0 ∧
     (my6502_reset { M0 with ac := 7, sr := 0 } 0x0400).y = 0 ∧
     (my6502_reset { M0 with ac := 7, sr := 0 } 0x0400).sp = 0xFD ∧
     (my6502_reset { M0 with ac := 7, sr := 0 } 0x0400).sr = 0x20 ∧
     (my6502_reset { M0 with ac := 7, sr := 0 } 0x0400).mem =
       ({ M0 with ac := 7, sr := 0 } : Machine).mem ∧
     (my6502_reset { M0 with ac := 7, sr := 0 } 0x0400).trace =
       ({ M0 with ac := 7, sr := 0 } : Machine).trace) :=
  ⟨by decide, reset_frame { M0 with ac := 7, sr := 0 } 0x0400 (by decide)⟩

/-! ### Claim C8: zero-page indexed addressing wraps within page 0 -/

/-- Claim C8: for every base byte fetched as the operand and every value
of the index register (X for `ZEROPAGE_X`, Y for `ZEROPAGE_Y`), the
effective address computed by zero-page-indexed addressing equals
`(base + idx) % 256`: it wraps within page 0 and never reaches another
page. -/
theorem zeropage_indexed_wraps (m : Machine) :
    ((my_read_addr m .ZEROPAGE_X).1 =
       ((my6502_read m m.pc).1 + m.x) % 256 ∧
     (my_read_addr m .ZEROPAGE_X).1 < 256) ∧
    ((my_read_addr m .ZEROPAGE_Y).1 =
       ((my6502_read m m.pc).1 + m.y) % 256 ∧
     (my_read_addr m .ZEROPAGE_Y).1 < 256) := by
  refine ⟨⟨?_, ?_⟩, ⟨?_, ?_⟩⟩ <;>
    simp [my_read_addr, my6502_read, land_255_eq_mod] <;>
    exact Nat.mod_lt _ (by norm_num)

/-! ### Claim C4: SBC is ADC of the complemented operand -/

/-- Claim C4: for every machine state and every 8-bit operand `b`,
executing `my_sbc` with operand `b` produces exactly the same machine —
accumulator, all SR flags, and every other component — as executing
`my_adc` with operand `255 - b`, the bitwise complement of `b` within a
byte. -/
theorem sbc_eq_adc_complement (m : Machine) (b : Nat) (hb : b < 256) :
    my_sbc m b = my_adc m (255 - b) := by
  unfold my_sbc
  rw [show (0xFF : Nat) = 255 from rfl, xor_255_eq_sub b hb]

/-- Witness for C4 at a concrete state and operand. -/
theorem sbc_eq_adc_complement_witness :
    (0x10 : Nat) < 256 ∧
    my_sbc { M0 with ac := 0x50, sr := 0x21 } 0x10 =
      my_adc { M0 with ac := 0x50, sr := 0x21 } (255 - 0x10) :=
  ⟨by decide, sbc_eq_adc_complement { M0 with ac := 0x50, sr := 0x21 } 0x10 (by decide)⟩

/-! ### Claim C1: the unused bit in reachable states -/

/-- Claim C1 (code bug): bit 5 of SR is claimed to be 1 in every state
reachable from reset, but one `my6502_step` after `my6502_reset` — an RTI
whose stack byte has bit 5 clear — leaves `SR = 0x10`, with bit 5 equal
to 0 when the register is read. -/
theorem rti_reaches_unused_bit_clear :
    ∃ m', my6502_step (my6502_reset
        { pc := 0, ac := 0, x := 0, y := 0, sr := 0, sp := 0,
          mem := memRtiZero, trace := [] } 0x0400) = .ok m' ∧
      m'.sr = 0x10 ∧ m'.sr.testBit 5 = false :=
  ⟨_, rfl, by decide, by decide⟩

/-! ### Claim C2: what RTI does to SR and PC -/

/-- Claim C2 (code bug): RTI pulls the status byte first, then the PC low
byte, then the PC high byte (see the access log), forces the B flag, and
applies no `+1` to the restored PC — but it does not force bit 5: with
`0x84` on the stack the restored SR is `0x94` (bit 5 clear), not the
`0xB4` the claim requires. -/
theorem rti_effect_at_crafted_frame :
    ∃ m', my6502_step
        { pc := 0x0400, ac := 0, x := 0, y := 0, sr := 0xFF, sp := 0xFA,
          mem := memRtiFrame, trace := [] } = .ok m' ∧
      m'.trace = [BusEvent.rd 0x0400 0x40, BusEvent.rd 0x01FB 0x84,
        BusEvent.rd 0x01FC 0x34, BusEvent.rd 0x01FD 0x12] ∧
      m'.sr = 0x94 ∧
      m'.sr.testBit 4 = true ∧
      m'.sr.testBit 5 = false ∧
      m'.pc = 0x1234 ∧
      m'.sp = 0xFD :=
  ⟨_, rfl, by decide, by decide, by decide, by decide, by decide, by decide⟩

/-! ### Claim C6: PHP / PLP -/

/-- Counterexample for C6: with starting `SR = 0x00`, the byte PHP pushes
is `0x10` — SR with only the B flag or-ed in — not `SR | B | bit5 = 0x30`
as the claim states; bit 5 of the pushed copy is 0. -/
theorem php_pushed_byte_lacks_bit5 :
    ∃ m', my6502_step phpMachine = .ok m' ∧
      m'.mem 0x01FD = 0x10 ∧
      m'.mem 0x01FD ≠
        phpMachine.sr ||| SR_FLAG_BREAK ||| SR_FLAG_UNUSED ∧
      Nat.testBit (m'.mem 0x01FD) 5 = false :=
  ⟨_, rfl, by decide, by decide, by decide⟩

/-! ### Claim C7: undefined opcodes are a fatal dispatch error -/

/-- Any opcode without a `case` label in the switch falls through to the
fatal default branch, with the registers untouched since the fetch. -/
theorem handler_complete : ((List.range 256).all fun o =>
    (opcodeHandler o).isSome == specOfficialNMOSOpcodes.contains o) = true := by
  decide

theorem opcodeHandler_eq_none (o : Nat) (ho : o < 256)
    (h : o ∉ specOfficialNMOSOpcodes) : opcodeHandler o = none := by
  have hall := List.all_eq_true.mp handler_complete o (List.mem_range.mpr ho)
  rw [beq_iff_eq] at hall
  cases hop : opcodeHandler o with
  | none => rfl
  | some f =>
    rw [hop] at hall
    simp only [Option.isSome_some] at hall
    exact absurd (List.mem_of_elem_eq_true hall.symm) h

theorem execOpcode_illegal (o : Nat) (m : Machine) (ho : o < 256)
    (h : o ∉ specOfficialNMOSOpcodes) :
    execOpcode o m = .error (.illegalOpcode o m) := by
  unfold execOpcode
  rw [opcodeHandler_eq_none o ho h]

/-- Claim C7: for every opcode byte outside the defined NMOS 6502
instruction set, `my6502_step` fails with an `illegalOpcode` error
carrying the opcode byte and the machine state at the failure point — the
register file preserved, PC advanced past the opcode fetch.  In the
`Except` model the error is final: no retry or recovery is possible. -/
theorem step_fails_on_undefined_opcode (m : Machine)
    (h : m.mem (m.pc % 65536) % 256 ∉ specOfficialNMOSOpcodes) :
    my6502_step m = .error (.illegalOpcode (m.mem (m.pc % 65536) % 256)
      { m with pc := (m.pc + 1) % 65536,
               trace := m.trace ++ [BusEvent.rd (m.pc % 65536)
                 (m.mem (m.pc % 65536) % 256)] }) := by
  have ho : m.mem (m.pc % 65536) % 256 < 256 := Nat.mod_lt _ (by norm_num)
  exact execOpcode_illegal _ _ ho h

/-- Witness for C7 at the concrete undefined opcode `0x02`. -/
theorem step_fails_on_undefined_opcode_witness :
    (illegalOpMachine.mem (illegalOpMachine.pc % 65536) % 256 ∉
      specOfficialNMOSOpcodes) ∧
    my6502_step illegalOpMachine = .error (.illegalOpcode
      (illegalOpMachine.mem (illegalOpMachine.pc % 65536) % 256)
      { illegalOpMachine with
          pc := (illegalOpMachine.pc + 1) % 65536,
          trace := illegalOpMachine.trace ++
            [BusEvent.rd (illegalOpMachine.pc % 65536)
              (illegalOpMachine.mem (illegalOpMachine.pc % 65536) % 256)] }) :=
  ⟨by decide, step_fails_on_undefined_opcode illegalOpMachine (by decide)⟩

/-! ### Claim C3: ADC arithmetic and flags -/

theorem and_128_ne (x : Nat) : (x &&& 128 ≠ 0) ↔ x.testBit 7 = true := by
  rw [and_128_eq]
  cases h : x.testBit 7 <;> simp [h]

theorem and_128_eq_iff (x y : Nat) :
    (x &&& 128 = y &&& 128) ↔ x.testBit 7 = y.testBit 7 := by
  rw [and_128_eq, and_128_eq]
  cases hx : x.testBit 7 <;> cases hy : y.testBit 7 <;> simp

theorem and_128_eq_zero (x : Nat) : (x &&& 128 = 0) ↔ x.testBit 7 = false := by
  rw [and_128_eq]
  cases h : x.testBit 7 <;> simp

theorem testBit7_mod_256 (x : Nat) : (x % 256).testBit 7 = x.testBit 7 := by
  simp only [Nat.testBit_to_div_mod, decide_eq_decide]
  omega

theorem SR_SET_ac (m : Machine) (b : Nat) : (SR_SET m b).ac = m.ac := rfl

theorem SR_SET_sr (m : Machine) (b : Nat) : (SR_SET m b).sr = m.sr ||| b := rfl

theorem SR_CLR_ac (m : Machine) (b : Nat) : (SR_CLR m b).ac = m.ac := rfl

theorem SR_CLR_sr (m : Machine) (b : Nat) :
    (SR_CLR m b).sr = m.sr &&& (0xFF ^^^ b) := rfl

/-- Claim C3: for all 8-bit values `a` (initial accumulator) and `b`
(operand) and carry-in `c = SR % 2 ∈ {0,1}`, `my_adc` yields
`AC = (a + b + c) % 256`, `C = ((a + b + c) ≥ 256)`, `Z = (AC = 0)`,
`N = bit 7 of AC`, and `V = (((a XOR AC) AND (b XOR AC) AND 0x80) ≠ 0)`,
each flag read as the corresponding bit of the resulting SR. -/
theorem my_adc_correct (m : Machine) (b : Nat)
    (ha : m.ac < 256) (hb : b < 256) :
    (my_adc m b).ac = (m.ac + b + m.sr % 2) % 256 ∧
    ((my_adc m b).sr.testBit 0 = true ↔ m.ac + b + m.sr % 2 ≥ 256) ∧
    ((my_adc m b).sr.testBit 1 = true ↔ (my_adc m b).ac = 0) ∧
    (my_adc m b).sr.testBit 7 = (my_adc m b).ac.testBit 7 ∧
    ((my_adc m b).sr.testBit 6 = true ↔
      (m.ac ^^^ (my_adc m b).ac) &&& (b ^^^ (my_adc m b).ac) &&& 0x80 ≠ 0) := by
  have hC : (if m.sr &&& 1 ≠ 0 then 1 else 0) = m.sr % 2 := by
    rw [Nat.and_one_is_mod]
    split_ifs with h <;> omega
  have hR : (m.ac + b + m.sr % 2) % 65536 = m.ac + b + m.sr % 2 :=
    Nat.mod_eq_of_lt (by omega)
  simp only [my_adc, my_update_sr_with_carry, my_update_sr,
    SR_FLAG_NEGATIVE, SR_FLAG_ZERO, SR_FLAG_OVERFLOW, SR_FLAG_CARRY,
    SR_SET_ac, SR_SET_sr, SR_CLR_ac, SR_CLR_sr,
    apply_ite Machine.ac, apply_ite Machine.sr, hC, hR, ite_self]
  simp only [show ((128 : Nat) ||| 2) = 130 from by decide,
    show ((130 : Nat) &&& 2) = 2 from by decide,
    show ((130 : Nat) &&& 128) = 128 from by decide,
    show ((255 : Nat) ^^^ 64) = 191 from by decide,
    show ((255 : Nat) ^^^ 128) = 127 from by decide,
    show ((255 : Nat) ^^^ 2) = 253 from by decide,
    show ((255 : Nat) ^^^ 1) = 254 from by decide,
    show ((2 : Nat) ≠ 0) = True from by simp,
    show ((128 : Nat) ≠ 0) = True from by simp, if_true]
  refine ⟨trivial, ?_, ?_, ?_, ?_⟩
  · split_ifs <;>
      (simp only [Nat.testBit_or, Nat.testBit_and, Nat.testBit_xor]
       simp [Nat.testBit_to_div_mod]
       try omega)
  · split_ifs <;>
      (simp only [Nat.testBit_or, Nat.testBit_and, Nat.testBit_xor]
       simp [Nat.testBit_to_div_mod]
       try omega)
  · split_ifs <;>
      (simp only [Nat.testBit_or, Nat.testBit_and, Nat.testBit_xor]
       simp only [and_128_ne] at *
       simp_all [Nat.testBit_to_div_mod]
       try omega)
  · split_ifs <;>
      (simp only [ne_eq, and_128_ne, and_128_eq_iff, and_128_eq_zero,
         not_and, not_not] at *
       simp only [Nat.testBit_or, Nat.testBit_and, Nat.testBit_xor,
         testBit7_mod_256,
         show Nat.testBit 64 6 = true from by decide,
         show Nat.testBit 191 6 = false from by decide,
         show Nat.testBit 128 6 = false from by decide,
         show Nat.testBit 127 6 = true from by decide,
         show Nat.testBit 2 6 = false from by decide,
         show Nat.testBit 253 6 = true from by decide,
         show Nat.testBit 1 6 = false from by decide,
         show Nat.testBit 254 6 = true from by decide]
       cases hA : m.ac.testBit 7 <;> cases hB : b.testBit 7 <;>
         cases hRt : (m.ac + b + m.sr % 2).testBit 7 <;> simp_all)

/-- Witness for C3 at the spec's overflow scenario: `AC = 0x50`,
operand `0x50`, carry-in 0 — sum `0xA0`, `N = V = 1`, `C = Z = 0`. -/
theorem my_adc_correct_witness :
    ({ M0 with ac := 0x50 } : Machine).ac < 256 ∧ (0x50 : Nat) < 256 ∧
    ((my_adc { M0 with ac := 0x50 } 0x50).ac =
       (({ M0 with ac := 0x50 } : Machine).ac + 0x50 +
         ({ M0 with ac := 0x50 } : Machine).sr % 2) % 256 ∧
     ((my_adc { M0 with ac := 0x50 } 0x50).sr.testBit 0 = true ↔
       ({ M0 with ac := 0x50 } : Machine).ac + 0x50 +
         ({ M0 with ac := 0x50 } : Machine).sr % 2 ≥ 256) ∧
     ((my_adc { M0 with ac := 0x50 } 0x50).sr.testBit 1 = true ↔
       (my_adc { M0 with ac := 0x50 } 0x50).ac = 0) ∧
     (my_adc { M0 with ac := 0x50 } 0x50).sr.testBit 7 =
       (my_adc { M0 with ac := 0x50 } 0x50).ac.testBit 7 ∧
     ((my_adc { M0 with ac := 0x50 } 0x50).sr.testBit 6 = true ↔
       (({ M0 with ac := 0x50 } : Machine).ac ^^^
           (my_adc { M0 with ac := 0x50 } 0x50).ac) &&&
         (0x50 ^^^ (my_adc { M0 with ac := 0x50 } 0x50).ac) &&& 0x80 ≠ 0)) :=
  ⟨by decide, by decide,
   my_adc_correct { M0 with ac := 0x50 } 0x50 (by decide) (by decide)⟩

/-! ### Claim C9: branches change only PC -/

theorem execOpcode_0x10 (m : Machine) : execOpcode 0x10 m =
    (let r := my_read_addr m .RELATIVE; .ok (my_bpl r.2 r.1)) := rfl

theorem execOpcode_0x30 (m : Machine) : execOpcode 0x30 m =
    (let r := my_read_addr m .RELATIVE; .ok (my_bmi r.2 r.1)) := rfl

theorem execOpcode_0x50 (m : Machine) : execOpcode 0x50 m =
    (let r := my_read_addr m .RELATIVE; .ok (my_bvc r.2 r.1)) := rfl

theorem execOpcode_0x70 (m : Machine) : execOpcode 0x70 m =
    (let r := my_read_addr m .RELATIVE; .ok (my_bvs r.2 r.1)) := rfl

theorem execOpcode_0x90 (m : Machine) : execOpcode 0x90 m =
    (let r := my_read_addr m .RELATIVE; .ok (my_bcc r.2 r.1)) := rfl

theorem execOpcode_0xB0 (m : Machine) : execOpcode 0xB0 m =
    (let r := my_read_addr m .RELATIVE; .ok (my_bcs r.2 r.1)) := rfl

theorem execOpcode_0xD0 (m : Machine) : execOpcode 0xD0 m =
    (let r := my_read_addr m .RELATIVE; .ok (my_bne r.2 r.1)) := rfl

theorem execOpcode_0xF0 (m : Machine) : execOpcode 0xF0 m =
    (let r := my_read_addr m .RELATIVE; .ok (my_beq r.2 r.1)) := rfl

/-- Claim C9: for every branch instruction (BPL, BMI, BVC, BVS, BCC, BCS,
BNE, BEQ) and every starting state, `my6502_step` succeeds and leaves AC,
X, Y, SP and every SR flag unchanged, whether or not the branch is taken;
memory is untouched and the only bus accesses are the opcode fetch and the
offset-byte fetch. -/
theorem branch_frame (m : Machine) (hpc : m.pc < 65536)
    (hbr : m.mem m.pc % 256 ∈
      ([0x10, 0x30, 0x50, 0x70, 0x90, 0xB0, 0xD0, 0xF0] : List Nat)) :
    ∃ m', my6502_step m = .ok m' ∧
      m'.ac = m.ac ∧ m'.x = m.x ∧ m'.y = m.y ∧ m'.sp = m.sp ∧ m'.sr = m.sr ∧
      m'.mem = m.mem ∧
      m'.trace = m.trace ++
        [BusEvent.rd m.pc (m.mem m.pc % 256),
         BusEvent.rd ((m.pc + 1) % 65536) (m.mem ((m.pc + 1) % 65536) % 256)] := by
  have hmod : m.pc % 65536 = m.pc := Nat.mod_eq_of_lt hpc
  have hmod2 : (m.pc + 1) % 65536 % 65536 = (m.pc + 1) % 65536 := by omega
  simp only [List.mem_cons, List.not_mem_nil, or_false] at hbr
  rcases hbr with h | h | h | h | h | h | h | h <;>
    (simp only [my6502_step, my6502_read, hmod, hmod2, h,
       execOpcode_0x10, execOpcode_0x30, execOpcode_0x50, execOpcode_0x70,
       execOpcode_0x90, execOpcode_0xB0, execOpcode_0xD0, execOpcode_0xF0,
       my_read_addr, my_bpl, my_bmi, my_bvc, my_bvs, my_bcc, my_bcs,
       my_bne, my_beq]
     refine ⟨_, rfl, ?_, ?_, ?_, ?_, ?_, ?_, ?_⟩ <;>
       simp [apply_ite Machine.ac, apply_ite Machine.x, apply_ite Machine.y,
         apply_ite Machine.sp, apply_ite Machine.sr, apply_ite Machine.mem,
         apply_ite Machine.trace])

/-- Witness for C9: a taken BEQ at a concrete machine. -/
theorem branch_frame_witness :
    branchMachine.pc < 65536 ∧
    (branchMachine.mem branchMachine.pc % 256 ∈
      ([0x10, 0x30, 0x50, 0x70, 0x90, 0xB0, 0xD0, 0xF0] : List Nat)) ∧
    (∃ m', my6502_step branchMachine = .ok m' ∧
      m'.ac = branchMachine.ac ∧ m'.x = branchMachine.x ∧
      m'.y = branchMachine.y ∧ m'.sp = branchMachine.sp ∧
      m'.sr = branchMachine.sr ∧
      m'.mem = branchMachine.mem ∧
      m'.trace = branchMachine.trace ++
        [BusEvent.rd branchMachine.pc (branchMachine.mem branchMachine.pc % 256),
         BusEvent.rd ((branchMachine.pc + 1) % 65536)
           (branchMachine.mem ((branchMachine.pc + 1) % 65536) % 256)]) :=
  ⟨by decide, by decide, branch_frame branchMachine (by decide) (by decide)⟩

/-! ### Claim C6 (amended): PHP then PLP -/

theorem execOpcode_0x08 (m : Machine) : execOpcode 0x08 m = .ok (my_php m) := rfl

theorem execOpcode_0x28 (m : Machine) : execOpcode 0x28 m = .ok (my_plp m) := rfl

theorem or_48_and_207 (s : Nat) : (s ||| 48) &&& 207 = s &&& 207 := by
  apply Nat.eq_of_testBit_eq
  intro i
  have h : (Nat.testBit 48 i && Nat.testBit 207 i) = false := by
    rw [← Nat.testBit_and]
    simp [show (48 &&& 207 : Nat) = 0 from by decide]
  simp only [Nat.testBit_or, Nat.testBit_and]
  cases h48 : Nat.testBit 48 i <;> cases h207 : Nat.testBit 207 i <;>
    simp_all

/-- Claim C6 as amended: for every starting SR value, the byte PHP pushes
is SR with the B flag or-ed in (bit 5 is carried over from SR, not
forced), and executing PHP then PLP (the bus returning the pushed byte)
yields `SR | B | bit5`: it restores SR exactly on every bit except bits 4
and 5, bit 5 reads 1 afterwards, and the in-register B flag may differ
from the original.  The other registers are untouched. -/
theorem php_plp_roundtrip (m m1 m2 : Machine) (hpc : m.pc < 65536)
    (hsp : m.sp < 256) (hsr : m.sr < 256)
    (h08 : m.mem m.pc % 256 = 0x08)
    (h28 : m.mem ((m.pc + 1) % 65536) % 256 = 0x28)
    (hne : (m.pc + 1) % 65536 ≠ 0x100 + m.sp)
    (h1 : my6502_step m = Except.ok m1)
    (h2 : my6502_step m1 = Except.ok m2) :
    m1.mem (0x100 + m.sp) = m.sr ||| 0x10 ∧
    m2.sr = m.sr ||| 0x30 ∧
    m2.sr &&& 0xCF = m.sr &&& 0xCF ∧
    m2.sr.testBit 5 = true ∧
    m2.sp = m.sp ∧ m2.ac = m.ac ∧ m2.x = m.x ∧ m2.y = m.y := by
  have hmod : m.pc % 65536 = m.pc := Nat.mod_eq_of_lt hpc
  have e1 : (m.pc + 1) % 65536 % 65536 = (m.pc + 1) % 65536 := by omega
  have e2 : (0x100 + m.sp) % 65536 = 0x100 + m.sp := by omega
  have e3 : ((m.sp + 255) % 256 + 1) % 256 = m.sp := by omega
  have hv : (m.sr ||| 16) % 256 = m.sr ||| 16 :=
    Nat.mod_eq_of_lt (Nat.or_lt_two_pow (n := 8) hsr (by norm_num))
  have hneq : ((m.pc + 1) % 65536 = 0x100 + m.sp) = False :=
    eq_false hne
  simp only [my6502_step, my6502_read, hmod, h08, execOpcode_0x08,
    my_php, my_push, my6502_write, SR_FLAG_BREAK, STACK_OFFSET,
    Except.ok.injEq] at h1
  subst h1
  simp only [my6502_step, my6502_read, e1, e2, e3, hv, hneq, if_false,
    h28, execOpcode_0x28, my_plp, my_pop, SR_FLAG_UNUSED, STACK_OFFSET,
    Except.ok.injEq] at h2
  subst h2
  refine ⟨?_, ?_, ?_, ?_, ?_, ?_, ?_, ?_⟩ <;>
    simp [e2, hv, Nat.lor_assoc, or_48_and_207, Nat.testBit_or,
      show (16 ||| 32 : Nat) = 48 from by decide,
      show Nat.testBit 48 5 = true from by decide,
      show Nat.testBit 32 5 = true from by decide]

/-- Witness for the amended C6 at a concrete machine with `SR = 0xC3`. -/
theorem php_plp_roundtrip_witness :
    phpPlpMachine.pc < 65536 ∧ phpPlpMachine.sp < 256 ∧
    phpPlpMachine.sr < 256 ∧
    phpPlpMachine.mem phpPlpMachine.pc % 256 = 0x08 ∧
    phpPlpMachine.mem ((phpPlpMachine.pc + 1) % 65536) % 256 = 0x28 ∧
    (phpPlpMachine.pc + 1) % 65536 ≠ 0x100 + phpPlpMachine.sp ∧
    my6502_step phpPlpMachine = Except.ok (stepOk phpPlpMachine) ∧
    my6502_step (stepOk phpPlpMachine) =
      Except.ok (stepOk (stepOk phpPlpMachine)) ∧
    ((stepOk phpPlpMachine).mem (0x100 + phpPlpMachine.sp) =
       phpPlpMachine.sr ||| 0x10 ∧
     (stepOk (stepOk phpPlpMachine)).sr = phpPlpMachine.sr ||| 0x30 ∧
     (stepOk (stepOk phpPlpMachine)).sr &&& 0xCF =
       phpPlpMachine.sr &&& 0xCF ∧
     (stepOk (stepOk phpPlpMachine)).sr.testBit 5 = true ∧
     (stepOk (stepOk phpPlpMachine)).sp = phpPlpMachine.sp ∧
     (stepOk (stepOk phpPlpMachine)).ac = phpPlpMachine.ac ∧
     (stepOk (stepOk phpPlpMachine)).x = phpPlpMachine.x ∧
     (stepOk (stepOk phpPlpMachine)).y = phpPlpMachine.y) :=
  ⟨by decide, by decide, by decide, by decide, by decide, by decide,
   rfl, rfl,
   php_plp_roundtrip phpPlpMachine (stepOk phpPlpMachine)
     (stepOk (stepOk phpPlpMachine)) (by decide) (by decide) (by decide)
     (by decide) (by decide) (by decide) rfl rfl⟩

/-! ### Claim C5: JSR then RTS -/

theorem execOpcode_0x20 (m : Machine) : execOpcode 0x20 m =
    (let r := my_read_addr m .ABSOLUTE; .ok (my_jsr r.2 r.1)) := rfl

theorem execOpcode_0x60 (m : Machine) : execOpcode 0x60 m = .ok (my_rts m) := rfl

/-- Claim C5: executing the three-byte JSR at address `p` pushes the
address `p + 2` — the last byte of the JSR instruction — high byte first
then low byte, jumps to the operand target, and a subsequent RTS (with no
intervening stack mutation and the bus returning the pushed bytes) sets
PC to `p + 3`, the byte after the JSR instruction, restoring SP. -/
theorem jsr_rts_roundtrip (m m1 m2 : Machine) (hpc : m.pc < 65536)
    (hsp : m.sp < 256)
    (hop : m.mem m.pc % 256 = 0x20)
    (hrts : m.mem (m.mem ((m.pc + 1) % 65536) % 256 +
      m.mem ((m.pc + 2) % 65536) % 256 * 256) % 256 = 0x60)
    (hne1 : m.mem ((m.pc + 1) % 65536) % 256 +
      m.mem ((m.pc + 2) % 65536) % 256 * 256 ≠ 0x100 + m.sp)
    (hne2 : m.mem ((m.pc + 1) % 65536) % 256 +
      m.mem ((m.pc + 2) % 65536) % 256 * 256 ≠ 0x100 + (m.sp + 255) % 256)
    (h1 : my6502_step m = Except.ok m1)
    (h2 : my6502_step m1 = Except.ok m2) :
    m1.pc = m.mem ((m.pc + 1) % 65536) % 256 +
      m.mem ((m.pc + 2) % 65536) % 256 * 256 ∧
    m1.mem (0x100 + m.sp) = (m.pc + 2) % 65536 / 256 ∧
    m1.mem (0x100 + (m.sp + 255) % 256) = (m.pc + 2) % 65536 % 256 ∧
    m1.trace = m.trace ++
      [BusEvent.rd m.pc 0x20,
       BusEvent.rd ((m.pc + 1) % 65536) (m.mem ((m.pc + 1) % 65536) % 256),
       BusEvent.rd ((m.pc + 2) % 65536) (m.mem ((m.pc + 2) % 65536) % 256),
       BusEvent.wr (0x100 + m.sp) ((m.pc + 2) % 65536 / 256),
       BusEvent.wr (0x100 + (m.sp + 255) % 256) ((m.pc + 2) % 65536 % 256)] ∧
    m2.pc = (m.pc + 3) % 65536 ∧
    m2.sp = m.sp := by
  have hmod : m.pc % 65536 = m.pc := Nat.mod_eq_of_lt hpc
  have e1 : (m.pc + 1) % 65536 % 65536 = (m.pc + 1) % 65536 := by omega
  have e4 : ((m.pc + 1) % 65536 + 1) % 65536 = (m.pc + 2) % 65536 := by omega
  have e5 : ((m.pc + 1) % 65536 + 2) % 65536 = (m.pc + 3) % 65536 := by omega
  have e6 : ((m.pc + 3) % 65536 + 65535) % 65536 = (m.pc + 2) % 65536 := by
    omega
  have e1b : (m.pc + 2) % 65536 % 65536 = (m.pc + 2) % 65536 := by omega
  have e7 : ((m.pc + 2) % 65536) >>> 8 = (m.pc + 2) % 65536 / 256 := by
    rw [Nat.shiftRight_eq_div_pow]
  have e8 : (m.pc + 2) % 65536 / 256 % 256 = (m.pc + 2) % 65536 / 256 := by
    omega
  have e2 : (0x100 + m.sp) % 65536 = 0x100 + m.sp := by omega
  have e9 : (0x100 + (m.sp + 255) % 256) % 65536 =
      0x100 + (m.sp + 255) % 256 := by omega
  have e11 : (((m.sp + 255) % 256 + 255) % 256 + 1) % 256 =
      (m.sp + 255) % 256 := by omega
  have e3 : ((m.sp + 255) % 256 + 1) % 256 = m.sp := by omega
  have e12 : (m.mem ((m.pc + 1) % 65536) % 256 +
      m.mem ((m.pc + 2) % 65536) % 256 * 256) % 65536 =
      m.mem ((m.pc + 1) % 65536) % 256 +
      m.mem ((m.pc + 2) % 65536) % 256 * 256 := by omega
  have e13 : (m.pc + 2) % 65536 % 256 % 256 = (m.pc + 2) % 65536 % 256 := by
    omega
  have hf1 : (m.mem ((m.pc + 1) % 65536) % 256 +
      m.mem ((m.pc + 2) % 65536) % 256 * 256 = 0x100 + m.sp) = False :=
    eq_false hne1
  have hf2 : (m.mem ((m.pc + 1) % 65536) % 256 +
      m.mem ((m.pc + 2) % 65536) % 256 * 256 =
      0x100 + (m.sp + 255) % 256) = False := eq_false hne2
  have hf3 : (0x100 + m.sp = 0x100 + (m.sp + 255) % 256) = False := by
    apply eq_false
    omega
  simp only [my6502_step, my6502_read, hmod, hop, execOpcode_0x20,
    my_read_addr, my_read_addr_from_mem, my_jsr, my_push, my6502_write,
    STACK_OFFSET, e1, e1b, e4, e5, e6, e7, e8, e2, e9, e12,
    Except.ok.injEq] at h1
  subst h1
  simp only [my6502_step, my6502_read, e12, e1b, hf1, hf2, if_false, hrts,
    execOpcode_0x60, my_rts, my_pop, STACK_OFFSET, e11, e3, e9, e2, e13,
    hf3, Except.ok.injEq] at h2
  subst h2
  refine ⟨rfl, ?_, ?_, ?_, ?_, rfl⟩
  · simp [hf3, e7, e8]
  · simp
  · simp [e7, e8]
  · simp only [if_true]
    omega

/-- Witness for C5 at the spec's JSR/RTS scenario. -/
theorem jsr_rts_roundtrip_witness :
    jsrMachine.pc < 65536 ∧ jsrMachine.sp < 256 ∧
    jsrMachine.mem jsrMachine.pc % 256 = 0x20 ∧
    jsrMachine.mem (jsrMachine.mem ((jsrMachine.pc + 1) % 65536) % 256 +
      jsrMachine.mem ((jsrMachine.pc + 2) % 65536) % 256 * 256) % 256 = 0x60 ∧
    (jsrMachine.mem ((jsrMachine.pc + 1) % 65536) % 256 +
      jsrMachine.mem ((jsrMachine.pc + 2) % 65536) % 256 * 256 ≠
      0x100 + jsrMachine.sp) ∧
    (jsrMachine.mem ((jsrMachine.pc + 1) % 65536) % 256 +
      jsrMachine.mem ((jsrMachine.pc + 2) % 65536) % 256 * 256 ≠
      0x100 + (jsrMachine.sp + 255) % 256) ∧
    my6502_step jsrMachine = Except.ok (stepOk jsrMachine) ∧
    my6502_step (stepOk jsrMachine) =
      Except.ok (stepOk (stepOk jsrMachine)) ∧
    ((stepOk jsrMachine).pc =
       jsrMachine.mem ((jsrMachine.pc + 1) % 65536) % 256 +
       jsrMachine.mem ((jsrMachine.pc + 2) % 65536) % 256 * 256 ∧
     (stepOk jsrMachine).mem (0x100 + jsrMachine.sp) =
       (jsrMachine.pc + 2) % 65536 / 256 ∧
     (stepOk jsrMachine).mem (0x100 + (jsrMachine.sp + 255) % 256) =
       (jsrMachine.pc + 2) % 65536 % 256 ∧
     (stepOk jsrMachine).trace = jsrMachine.trace ++
       [BusEvent.rd jsrMachine.pc 0x20,
        BusEvent.rd ((jsrMachine.pc + 1) % 65536)
          (jsrMachine.mem ((jsrMachine.pc + 1) % 65536) % 256),
        BusEvent.rd ((jsrMachine.pc + 2) % 65536)
          (jsrMachine.mem ((jsrMachine.pc + 2) % 65536) % 256),
        BusEvent.wr (0x100 + jsrMachine.sp) ((jsrMachine.pc + 2) % 65536 / 256),
        BusEvent.wr (0x100 + (jsrMachine.sp + 255) % 256)
          ((jsrMachine.pc + 2) % 65536 % 256)] ∧
     (stepOk (stepOk jsrMachine)).pc = (jsrMachine.pc + 3) % 65536 ∧
     (stepOk (stepOk jsrMachine)).sp = jsrMachine.sp) :=
  ⟨by decide, by decide, by decide, by decide, by decide, by decide,
   rfl, rfl,
   jsr_rts_roundtrip jsrMachine (stepOk jsrMachine)
     (stepOk (stepOk jsrMachine)) (by decide) (by decide) (by decide)
     (by decide) (by decide) (by decide) rfl rfl⟩

end Ya6502
